import Mathlib

/-!
Verification of the g726-seek library: a shallow embedding in Lean 4 of
`src/g726_seek/_g726_seek.py`, `src/g726_seek/ensure_mono.py` and
`src/g726_seek/subtypes.py`, together with theorems settling the behavioural
claims of the specification.

Modelling conventions:
* Python exceptions become an `Except G726Error` result.
* The process-wide dict `SUBTYPE_CACHE` becomes an explicit association list
  threaded through the functions that touch it.
* Platform capability (`sf.available_subtypes("WAV")`) becomes an explicit
  `available : List String` parameter.
* External collaborators (`os.path.exists`, `sf.SoundFile` header parsing,
  `librosa.load`, `librosa.resample`, `sf.write`) become explicit function
  parameters or recorded effects; the file system is a parameter.
* numpy arrays become `NDArray`: an explicit shape plus a flat list of
  rational samples.
-/

namespace G726

/-- Errors raised by the library, mirroring the Python exceptions. -/
inductive G726Error where
  /-- `FileNotFoundError(f"File not found: {path}")` -/
  | fileNotFound (path : String)
  /-- `RuntimeError` raised by `resolve_best_subtype` when no ADPCM subtype
  at all is supported (the spec's `NoCodecAvailable`). -/
  | noCodecAvailable
  /-- The `ValueError` in `G726Seek.write` reporting an unsupported
  `bits_per_sample`; carries the requested bits and `list(SUBTYPE_CACHE.keys())`. -/
  | valueErrorUnsupportedBits (bits : Nat) (cacheKeys : List Nat)
  /-- Python `TypeError` for a call with an unexpected keyword argument. -/
  | typeErrorUnexpectedKwarg (fn : String) (kw : String)
  /-- `ValueError(f"Unsupported number of dimensions: {ndim}")` raised by
  `ensure_mono` (the spec's `UnsupportedRank`). -/
  | unsupportedRank (ndim : Nat)
  /-- `RuntimeError(f"Failed to load or resample: {e}")` in
  `convert_from_file`, wrapping the original cause (the spec's `LoadFailure`). -/
  | loadFailure (cause : String)
  /-- Error raised by `sf.SoundFile` when opening/parsing a file fails. -/
  | soundFileError (msg : String)
  /-- The spec's `SeekOutOfRange`: requested start beyond stream end. -/
  | seekOutOfRange
deriving Repr, DecidableEq

/-- The process-wide `SUBTYPE_CACHE : dict[BITS_TYPE, str]`, as an association
list from bits-per-sample to resolved subtype string.  Updates are modelled by
consing, lookups take the most recent binding, matching dict semantics. -/
abbrev SubtypeCache := List (Nat × String)

/-- Lookup in the cache: `bits in SUBTYPE_CACHE` / `SUBTYPE_CACHE[bits]`. -/
def cacheLookup : SubtypeCache → Nat → Option String
  | [], _ => none
  | (k, v) :: rest, b => if k = b then some v else cacheLookup rest b

/-- The priority candidate list built by `resolve_best_subtype` for each
bits-per-sample value (`_g726_seek.py`, lines 168-180).  Any value outside
`{2,3,4,5}` leaves `candidates = []`. -/
def candidatesFor (bits : Nat) : List String :=
  if bits = 2 then ["G726_16", "NMS_ADPCM_16"]
  else if bits = 3 then ["G726_24", "NMS_ADPCM_24"]
  else if bits = 4 then ["G726_32", "G721_32", "NMS_ADPCM_32", "IMA_ADPCM"]
  else if bits = 5 then ["G726_40", "NMS_ADPCM_40"]
  else []

/-- Successful outcome of `resolve_best_subtype`: the chosen subtype string,
whether the non-fatal fallback warning was printed, and the cache after the
call. -/
structure ResolveResult where
  subtype : String
  warned : Bool
  cache : SubtypeCache
deriving Repr, DecidableEq

/-- `G726Seek.resolve_best_subtype` (`_g726_seek.py`, lines 155-200).
`available` models `sf.available_subtypes("WAV")`.  Returns the cached value
when present; otherwise picks the first supported candidate, falling back to
`IMA_ADPCM` with a printed warning, and raising `RuntimeError` when even the
fallback is unsupported.  The chosen value is stored in the cache. -/
def resolve_best_subtype (available : List String) (bits : Nat)
    (cache : SubtypeCache) : Except G726Error ResolveResult :=
  match cacheLookup cache bits with
  | some s => .ok ⟨s, false, cache⟩
  | none =>
    match (candidatesFor bits).find? (fun c => available.contains c) with
    | some s => .ok ⟨s, false, (bits, s) :: cache⟩
    | none =>
      if available.contains "IMA_ADPCM" then
        .ok ⟨"IMA_ADPCM", true, (bits, "IMA_ADPCM") :: cache⟩
      else
        .error .noCodecAvailable

/-- A numpy `ndarray` of rational samples: an explicit shape together with the
flat (row-major) data. -/
structure NDArray where
  shape : List Nat
  data : List ℚ
deriving Repr, DecidableEq

/-- `ndarray.ndim`: the number of dimensions. -/
def NDArray.ndim (a : NDArray) : Nat := a.shape.length

/-- `ensure_mono` (`ensure_mono.py`): 1-dim input returned as-is, 2-dim input
averaged over axis 1 (`data.mean(axis=1)`), anything else raises `ValueError`. -/
def ensure_mono (a : NDArray) : Except G726Error NDArray :=
  if a.ndim = 1 then .ok a
  else if a.ndim = 2 then
    let f := a.shape.getD 0 0
    let c := a.shape.getD 1 0
    .ok ⟨[f], (List.range f).map (fun i =>
      (((List.range c).map (fun j => a.data.getD (i * c + j) 0)).sum) / (c : ℚ))⟩
  else .error (.unsupportedRank a.ndim)

/-- Successful outcome of `G726Seek.write`: the returned path, the subtype the
file was encoded with, whether the fallback warning was printed, and the cache
after the call.  A `.ok` value means `sf.write` ran and the file exists. -/
structure WriteOutcome where
  path : String
  subtype : String
  warned : Bool
  cache : SubtypeCache
deriving Repr, DecidableEq

/-- `G726Seek.write` (`_g726_seek.py`, lines 42-74): resolves the subtype
(propagating its exception), raises `ValueError` when the resolved value is
falsy (the empty string), and otherwise writes the file and returns the path. -/
def write (available : List String) (path : String) (_data : NDArray)
    (_sample_rate : Nat) (bits : Nat) (cache : SubtypeCache) :
    Except G726Error WriteOutcome :=
  match resolve_best_subtype available bits cache with
  | .error e => .error e
  | .ok r =>
    if r.subtype = "" then
      .error (.valueErrorUnsupportedBits bits (r.cache.map Prod.fst))
    else
      .ok ⟨path, r.subtype, r.warned, r.cache⟩

/-- Side effects performed by `convert` / `convert_from_file`, recorded in
order: the downmix actually running, a `librosa.resample` call, and the final
`sf.write`.  A run that raises records no later effects. -/
inductive Effect where
  | downmix
  | resample (src tgt : Nat)
  | fileWrite (path subtype : String)
deriving Repr, DecidableEq

/-- The keyword parameters accepted by `ensure_mono` beyond the positional
`data`: its Python signature is `def ensure_mono(data)`, so none. -/
def ensure_mono_accepted_kwargs : List String := []

/-- Python call semantics for `ensure_mono(data, **kwargs)`: argument binding
happens before the body runs, so an unexpected keyword argument raises
`TypeError` without executing (or downmixing) anything; otherwise the body of
`ensure_mono` runs, recording the downmix effect. -/
def callEnsureMono (data : NDArray) (kwargs : List String) :
    Except G726Error (NDArray × List Effect) :=
  match kwargs.find? (fun k => !(ensure_mono_accepted_kwargs.contains k)) with
  | some k => .error (.typeErrorUnexpectedKwarg "ensure_mono" k)
  | none =>
    match ensure_mono data with
    | .error e => .error e
    | .ok m => .ok (m, [.downmix])

/-- `G726Seek.convert` (`_g726_seek.py`, lines 76-115).  `resample` models
`librosa.resample` as an opaque numeric transform.  Step 1 calls
`ensure_mono(data, style="librosa")` when `to_mono` is set; step 2 resamples
when `src_sr ≠ target_sr`; step 3 resolves the subtype and writes the file.
Returns the output path, the cache after the call, and the recorded effects. -/
def convert (available : List String) (resample : NDArray → Nat → Nat → NDArray)
    (data : NDArray) (output_path : String) (src_sr target_sr bits : Nat)
    (to_mono : Bool) (cache : SubtypeCache) :
    Except G726Error (String × SubtypeCache × List Effect) :=
  match (if to_mono then callEnsureMono data ["style"] else .ok (data, [])) with
  | .error e => .error e
  | .ok (d1, eff1) =>
    let step2 : NDArray × List Effect :=
      if src_sr ≠ target_sr then (resample d1 src_sr target_sr, [.resample src_sr target_sr])
      else (d1, [])
    match resolve_best_subtype available bits cache with
    | .error e => .error e
    | .ok r =>
      .ok (output_path, r.cache, eff1 ++ step2.2 ++ [.fileWrite output_path r.subtype])

/-- Header metadata parsed by `sf.SoundFile`: `f.frames` and `f.samplerate`. -/
structure AudioHeader where
  frames : Nat
  samplerate : Nat
deriving Repr, DecidableEq

/-- The external world the library consults: `os.path.exists` and the header
parse performed on `sf.SoundFile(path)` (which raises on malformed input). -/
structure SoundFileEnv where
  pathExists : String → Bool
  openHeader : String → Except String AudioHeader

/-- `G726Seek.get_duration` (`_g726_seek.py`, lines 18-30): raises
`FileNotFoundError` when the path does not exist (before any parsing), then
opens the file header-only and returns `f.frames / f.samplerate`. -/
def get_duration (env : SoundFileEnv) (path : String) : Except G726Error ℚ :=
  if !(env.pathExists path) then .error (.fileNotFound path)
  else
    match env.openHeader path with
    | .error e => .error (.soundFileError e)
    | .ok h => .ok ((h.frames : ℚ) / (h.samplerate : ℚ))

/-- `G726Seek.convert_from_file` (`_g726_seek.py`, lines 117-153).  `load`
models `librosa.load(input_path, sr=target_sr, mono=to_mono)`.  Raises
`FileNotFoundError` before any loading when the input path is missing; wraps a
loader failure in `RuntimeError(f"Failed to load or resample: {e}")`, carrying
the original cause; otherwise resolves the subtype and writes the file. -/
def convert_from_file (env : SoundFileEnv)
    (load : String → Nat → Bool → Except String NDArray)
    (available : List String) (input_path output_path : String)
    (target_sr bits : Nat) (to_mono : Bool) (cache : SubtypeCache) :
    Except G726Error (String × SubtypeCache × List Effect) :=
  if !(env.pathExists input_path) then .error (.fileNotFound input_path)
  else
    match load input_path target_sr to_mono with
    | .error e => .error (.loadFailure e)
    | .ok _y =>
      match resolve_best_subtype available bits cache with
      | .error e => .error e
      | .ok r => .ok (output_path, r.cache, [.fileWrite output_path r.subtype])

/-- Modelled from the spec: the module `g726_seek/read_audio_segment.py`,
imported by `G726Seek.read_segment`, is not among the provided source files.
Following §4.5: `start_frame = round(start_sec * sample_rate)` and
`frame_count = round(duration_sec * sample_rate)`; fails with `SeekOutOfRange`
when `start_frame >= total_frame_count`; otherwise returns the decoded frames
from `start_frame`, truncated to the available frames when the requested window
runs past the end.  `decoded` is the full linear-PCM decode of the file. -/
def read_audio_segment (hdr : AudioHeader) (decoded : List ℚ)
    (start_sec duration_sec : ℚ) : Except G726Error (List ℚ) :=
  let start_frame : ℤ := round (start_sec * (hdr.samplerate : ℚ))
  let frame_count : ℤ := round (duration_sec * (hdr.samplerate : ℚ))
  if (hdr.frames : ℤ) ≤ start_frame then .error .seekOutOfRange
  else .ok ((decoded.drop start_frame.toNat).take frame_count.toNat)

/-- `G726Seek.read_segment` (`_g726_seek.py`, lines 32-40): a direct delegation
to `read_audio_segment`. -/
def read_segment (hdr : AudioHeader) (decoded : List ℚ)
    (start_sec duration_sec : ℚ) : Except G726Error (List ℚ) :=
  read_audio_segment hdr decoded start_sec duration_sec

/-! ### Invariants and helper lemmas about the subtype resolver -/

/-- Every subtype string stored in the cache is non-empty.  This holds of the
empty initial cache and, by `resolve_preserves_CacheOK`, of every cache the
program can actually build, since `resolve_best_subtype` is the only writer. -/
def CacheOK (c : SubtypeCache) : Prop := ∀ p ∈ c, p.2 ≠ ""

theorem cacheOK_nil : CacheOK [] := by
  intro p hp
  simp at hp

theorem cacheLookup_ne_of_cacheOK (c : SubtypeCache) (b : Nat) (v : String)
    (hc : CacheOK c) (h : cacheLookup c b = some v) : v ≠ "" := by
  induction c with
  | nil => simp [cacheLookup] at h
  | cons p rest ih =>
    obtain ⟨k, w⟩ := p
    rw [cacheLookup] at h
    by_cases hk : k = b
    · rw [if_pos hk] at h
      injection h with h
      rw [← h]
      exact hc (k, w) (by simp)
    · rw [if_neg hk] at h
      exact ih (fun q hq => hc q (by simp [hq])) h

theorem empty_not_mem_candidatesFor (bits : Nat) : "" ∉ candidatesFor bits := by
  unfold candidatesFor
  repeat' split
  all_goals decide

/-- `candidatesFor` is empty exactly when the requested bits are outside
`{2,3,4,5}` — the Python `if/elif` chain leaves `candidates = []`. -/
theorem candidatesFor_eq_nil (bits : Nat) (h2 : bits ≠ 2) (h3 : bits ≠ 3)
    (h4 : bits ≠ 4) (h5 : bits ≠ 5) : candidatesFor bits = [] := by
  simp [candidatesFor, h2, h3, h4, h5]

/-- `resolve_best_subtype` hits the cache when the bits are present. -/
theorem resolve_of_cached (available : List String) (bits : Nat)
    (cache : SubtypeCache) (s : String) (h : cacheLookup cache bits = some s) :
    resolve_best_subtype available bits cache = .ok ⟨s, false, cache⟩ := by
  simp [resolve_best_subtype, h]

/-- After a successful resolution the chosen subtype is in the cache. -/
theorem resolve_ok_lookup (available : List String) (bits : Nat)
    (cache : SubtypeCache) (r : ResolveResult)
    (h : resolve_best_subtype available bits cache = .ok r) :
    cacheLookup r.cache bits = some r.subtype := by
  unfold resolve_best_subtype at h
  cases hcl : cacheLookup cache bits with
  | some s =>
    rw [hcl] at h
    simp at h
    rw [← h]
    exact hcl
  | none =>
    rw [hcl] at h
    cases hf : (candidatesFor bits).find? (fun c => available.contains c) with
    | some s =>
      rw [hf] at h
      simp at h
      rw [← h]
      simp [cacheLookup]
    | none =>
      rw [hf] at h
      cases hIMA : available.contains "IMA_ADPCM" with
      | true =>
        rw [hIMA] at h
        simp at h
        rw [← h]
        simp [cacheLookup]
      | false =>
        rw [hIMA] at h
        simp at h

/-- When the fallback `IMA_ADPCM` is supported, resolution always succeeds. -/
theorem resolve_exists (available : List String) (bits : Nat)
    (cache : SubtypeCache) (hIMA : available.contains "IMA_ADPCM" = true) :
    ∃ r, resolve_best_subtype available bits cache = .ok r := by
  unfold resolve_best_subtype
  cases hcl : cacheLookup cache bits with
  | some s => exact ⟨_, rfl⟩
  | none =>
    cases hf : (candidatesFor bits).find? (fun c => available.contains c) with
    | some s => exact ⟨_, rfl⟩
    | none =>
      rw [hIMA]
      exact ⟨_, rfl⟩

/-- The only exception `resolve_best_subtype` raises is the fatal
no-ADPCM-support `RuntimeError`. -/
theorem resolve_error_eq (available : List String) (bits : Nat)
    (cache : SubtypeCache) (e : G726Error)
    (h : resolve_best_subtype available bits cache = .error e) :
    e = .noCodecAvailable := by
  unfold resolve_best_subtype at h
  cases hcl : cacheLookup cache bits with
  | some s => rw [hcl] at h; simp at h
  | none =>
    rw [hcl] at h
    cases hf : (candidatesFor bits).find? (fun c => available.contains c) with
    | some s => rw [hf] at h; simp at h
    | none =>
      rw [hf] at h
      cases hIMA : available.contains "IMA_ADPCM" with
      | true =>
        rw [hIMA] at h
        simp at h
      | false =>
        rw [hIMA] at h
        simp at h
        exact h.symm

/-- On a cache of non-empty subtypes, a successful resolution returns a
non-empty subtype string (never a Python-falsy value). -/
theorem resolve_ok_subtype_ne (available : List String) (bits : Nat)
    (cache : SubtypeCache) (r : ResolveResult) (hc : CacheOK cache)
    (h : resolve_best_subtype available bits cache = .ok r) :
    r.subtype ≠ "" := by
  unfold resolve_best_subtype at h
  cases hcl : cacheLookup cache bits with
  | some s =>
    rw [hcl] at h
    simp at h
    rw [← h]
    exact cacheLookup_ne_of_cacheOK cache bits s hc hcl
  | none =>
    rw [hcl] at h
    cases hf : (candidatesFor bits).find? (fun c => available.contains c) with
    | some s =>
      rw [hf] at h
      simp at h
      rw [← h]
      intro hs
      exact empty_not_mem_candidatesFor bits (hs ▸ List.mem_of_find?_eq_some hf)
    | none =>
      rw [hf] at h
      cases hIMA : available.contains "IMA_ADPCM" with
      | true =>
        rw [hIMA] at h
        simp at h
        rw [← h]
        show "IMA_ADPCM" ≠ ""
        decide
      | false =>
        rw [hIMA] at h
        simp at h

/-- Resolution never stores an empty subtype, so the cache invariant is
preserved: `resolve_best_subtype` is the cache's only writer. -/
theorem resolve_preserves_cacheOK (available : List String) (bits : Nat)
    (cache : SubtypeCache) (r : ResolveResult) (hc : CacheOK cache)
    (h : resolve_best_subtype available bits cache = .ok r) :
    CacheOK r.cache := by
  unfold resolve_best_subtype at h
  cases hcl : cacheLookup cache bits with
  | some s =>
    rw [hcl] at h
    simp at h
    rw [← h]
    exact hc
  | none =>
    rw [hcl] at h
    cases hf : (candidatesFor bits).find? (fun c => available.contains c) with
    | some s =>
      rw [hf] at h
      simp at h
      rw [← h]
      intro p hp
      rcases List.mem_cons.mp hp with hp | hp
      · rw [hp]
        intro hs
        exact empty_not_mem_candidatesFor bits (hs ▸ List.mem_of_find?_eq_some hf)
      · exact hc p hp
    | none =>
      rw [hf] at h
      cases hIMA : available.contains "IMA_ADPCM" with
      | true =>
        rw [hIMA] at h
        simp at h
        rw [← h]
        intro p hp
        rcases List.mem_cons.mp hp with hp | hp
        · rw [hp]
          show "IMA_ADPCM" ≠ ""
          decide
        · exact hc p hp
      | false =>
        rw [hIMA] at h
        simp at h

/-- With the bits not cached and no supported candidate, resolution reduces to
the fallback test on `IMA_ADPCM`. -/
theorem resolve_fallback_eq (available : List String) (bits : Nat)
    (cache : SubtypeCache) (hfresh : cacheLookup cache bits = none)
    (hf : (candidatesFor bits).find? (fun c => available.contains c) = none) :
    resolve_best_subtype available bits cache =
      if available.contains "IMA_ADPCM" then
        .ok ⟨"IMA_ADPCM", true, (bits, "IMA_ADPCM") :: cache⟩
      else .error .noCodecAvailable := by
  simp only [resolve_best_subtype, hfresh, hf]

/-! ### The claims -/

/-- Claim C1 counterexample: with bits_per_sample = 6 (outside {2,3,4,5}) on a
platform whose supported set contains the fallback `IMA_ADPCM`, `write` does
not fail at all — it resolves to `IMA_ADPCM` (printing the downgrade warning)
and writes the file, returning the path. -/
theorem claim_C1_counterexample :
    write ["IMA_ADPCM"] "out.wav" ⟨[1], [0]⟩ 16000 6 [] =
      .ok ⟨"out.wav", "IMA_ADPCM", true, [(6, "IMA_ADPCM")]⟩ := rfl

/-- Claim C1, amended: for every bits_per_sample outside {2,3,4,5} (not yet
cached), the candidate list is empty, so `write` falls back: when `IMA_ADPCM`
is supported it succeeds, writing the file with `IMA_ADPCM` and a warning;
only when `IMA_ADPCM` is unsupported does it fail, with the fatal no-codec
`RuntimeError`, which does not list {2,3,4,5}. -/
theorem claim_C1_amended (available : List String) (bits : Nat) (path : String)
    (data : NDArray) (sr : Nat) (cache : SubtypeCache)
    (h2 : bits ≠ 2) (h3 : bits ≠ 3) (h4 : bits ≠ 4) (h5 : bits ≠ 5)
    (hfresh : cacheLookup cache bits = none) :
    (available.contains "IMA_ADPCM" = true →
      write available path data sr bits cache =
        .ok ⟨path, "IMA_ADPCM", true, (bits, "IMA_ADPCM") :: cache⟩) ∧
    (available.contains "IMA_ADPCM" = false →
      write available path data sr bits cache = .error .noCodecAvailable) := by
  have hnil := candidatesFor_eq_nil bits h2 h3 h4 h5
  have hf : (candidatesFor bits).find? (fun c => available.contains c) = none := by
    rw [hnil]
    rfl
  have hkey := resolve_fallback_eq available bits cache hfresh hf
  constructor
  · intro hIMA
    rw [hIMA] at hkey
    simp at hkey
    simp [write, hkey]
  · intro hIMA
    rw [hIMA] at hkey
    simp at hkey
    simp [write, hkey]

/-- Witness for the amended claim C1 at bits = 6. -/
theorem claim_C1_amended_witness :
    write ["IMA_ADPCM"] "o.wav" ⟨[1], [0]⟩ 8000 6 [] =
      .ok ⟨"o.wav", "IMA_ADPCM", true, [(6, "IMA_ADPCM")]⟩ ∧
    write [] "o.wav" ⟨[1], [0]⟩ 8000 6 [] = .error .noCodecAvailable :=
  ⟨(claim_C1_amended ["IMA_ADPCM"] 6 "o.wav" ⟨[1], [0]⟩ 8000 [] (by decide) (by decide)
      (by decide) (by decide) rfl).1 (by decide),
   (claim_C1_amended [] 6 "o.wav" ⟨[1], [0]⟩ 8000 [] (by decide) (by decide)
      (by decide) (by decide) rfl).2 (by decide)⟩

/-- Claim C2: for every input array, `convert` with `to_mono = true` raises
`TypeError` — it calls `ensure_mono(data, style="librosa")` and `ensure_mono`
accepts no keyword `style` — before any downmixing, resampling or writing
(the result is the bare error, recording no effect, independent of `data`,
`resample` and the platform). -/
theorem claim_C2_convert_to_mono_typeerror (available : List String)
    (resample : NDArray → Nat → Nat → NDArray) (data : NDArray)
    (output_path : String) (src_sr target_sr bits : Nat) (cache : SubtypeCache) :
    convert available resample data output_path src_sr target_sr bits true cache =
      .error (.typeErrorUnexpectedKwarg "ensure_mono" "style") := rfl

/-- Claim C3 (spec-modelled segment reader): whenever the computed
`start_frame = round(start_sec * sample_rate)` is at least the total frame
count, `read_segment` fails with `SeekOutOfRange` instead of returning a
buffer. -/
theorem claim_C3_read_segment_oob (hdr : AudioHeader) (decoded : List ℚ)
    (start_sec duration_sec : ℚ)
    (h : (hdr.frames : ℤ) ≤ round (start_sec * (hdr.samplerate : ℚ))) :
    read_segment hdr decoded start_sec duration_sec = .error .seekOutOfRange := by
  simp [read_segment, read_audio_segment, h]

/-- Witness for claim C3: a 10-second file at 8 kHz, seek to second 10. -/
theorem claim_C3_witness :
    read_segment ⟨80000, 8000⟩ [] 10 1 = .error .seekOutOfRange :=
  claim_C3_read_segment_oob ⟨80000, 8000⟩ [] 10 1 (by
    rw [round_eq, Int.le_floor]
    norm_num)

/-- Claim C4: when no exact-rate candidate for the requested bit-depth is in
the platform-supported set, resolution falls back to `IMA_ADPCM`, emitting the
non-fatal warning, and `write` still succeeds; when `IMA_ADPCM` is itself
unsupported, resolution fails fatally with the no-codec error. -/
theorem claim_C4_fallback (available : List String) (bits : Nat)
    (cache : SubtypeCache) (path : String) (data : NDArray) (sr : Nat)
    (hfresh : cacheLookup cache bits = none)
    (hnone : ∀ c ∈ candidatesFor bits, available.contains c = false) :
    (available.contains "IMA_ADPCM" = true →
      resolve_best_subtype available bits cache =
        .ok ⟨"IMA_ADPCM", true, (bits, "IMA_ADPCM") :: cache⟩ ∧
      write available path data sr bits cache =
        .ok ⟨path, "IMA_ADPCM", true, (bits, "IMA_ADPCM") :: cache⟩) ∧
    (available.contains "IMA_ADPCM" = false →
      resolve_best_subtype available bits cache = .error .noCodecAvailable) := by
  have hf : (candidatesFor bits).find? (fun c => available.contains c) = none := by
    rw [List.find?_eq_none]
    intro x hx
    simpa using hnone x hx
  have hkey := resolve_fallback_eq available bits cache hfresh hf
  constructor
  · intro hIMA
    rw [hIMA] at hkey
    simp at hkey
    exact ⟨hkey, by simp [write, hkey]⟩
  · intro hIMA
    rw [hIMA] at hkey
    simp at hkey
    exact hkey

/-- Witness for claim C4 at bits = 2: a platform supporting only `IMA_ADPCM`
(fallback taken, write succeeds) and a platform supporting nothing (fatal). -/
theorem claim_C4_witness :
    (resolve_best_subtype ["IMA_ADPCM"] 2 [] =
        .ok ⟨"IMA_ADPCM", true, [(2, "IMA_ADPCM")]⟩ ∧
      write ["IMA_ADPCM"] "out.wav" ⟨[1], [0]⟩ 16000 2 [] =
        .ok ⟨"out.wav", "IMA_ADPCM", true, [(2, "IMA_ADPCM")]⟩) ∧
    resolve_best_subtype [] 2 [] = .error .noCodecAvailable :=
  ⟨(claim_C4_fallback ["IMA_ADPCM"] 2 [] "out.wav" ⟨[1], [0]⟩ 16000 rfl
      (by decide)).1 (by decide),
   (claim_C4_fallback [] 2 [] "out.wav" ⟨[1], [0]⟩ 16000 rfl
      (by decide)).2 (by decide)⟩

/-- Claim C5: for every bit-depth in {2,3,4,5}, resolution returns a variant
whenever the platform supports at least the fallback `IMA_ADPCM`; and after a
successful call, a repeated call with the same bit-depth returns the identical
cached result for any capability set `available2` — the platform is not
re-queried. -/
theorem claim_C5_resolve_total_and_cached (available available2 : List String)
    (bits : Nat) (cache : SubtypeCache) (r : ResolveResult)
    (_hb : bits = 2 ∨ bits = 3 ∨ bits = 4 ∨ bits = 5)
    (hIMA : available.contains "IMA_ADPCM" = true) :
    (∃ r0, resolve_best_subtype available bits cache = .ok r0) ∧
    (resolve_best_subtype available bits cache = .ok r →
      resolve_best_subtype available2 bits r.cache = .ok ⟨r.subtype, false, r.cache⟩) := by
  constructor
  · exact resolve_exists available bits cache hIMA
  · intro h
    exact resolve_of_cached available2 bits r.cache r.subtype
      (resolve_ok_lookup available bits cache r h)

/-- Witness for claim C5 at bits = 2: the first call selects `G726_16` and the
second call returns it from the cache even with an empty capability set. -/
theorem claim_C5_witness :
    resolve_best_subtype [] 2 [(2, "G726_16")] =
      .ok ⟨"G726_16", false, [(2, "G726_16")]⟩ :=
  (claim_C5_resolve_total_and_cached ["G726_16", "IMA_ADPCM"] [] 2 []
    ⟨"G726_16", false, [(2, "G726_16")]⟩ (by decide) (by decide)).2 rfl

/-- Claim C6: `get_duration` fails with `FileNotFoundError` when the path does
not exist — regardless of the header parser, so before any parsing — and on an
existing, parseable file returns `frames / samplerate` from the header. -/
theorem claim_C6_get_duration (env : SoundFileEnv) (path : String)
    (h : AudioHeader) :
    (env.pathExists path = false →
      get_duration env path = .error (.fileNotFound path)) ∧
    (env.pathExists path = true → env.openHeader path = .ok h →
      get_duration env path = .ok ((h.frames : ℚ) / (h.samplerate : ℚ))) := by
  constructor
  · intro he
    simp [get_duration, he]
  · intro he ho
    simp [get_duration, he, ho]

/-- Witness for claim C6: a missing path, and a 10-second 8 kHz file. -/
theorem claim_C6_witness :
    get_duration ⟨fun _ => false, fun _ => .ok ⟨80000, 8000⟩⟩ "a.wav" =
      .error (.fileNotFound "a.wav") ∧
    get_duration ⟨fun _ => true, fun _ => .ok ⟨80000, 8000⟩⟩ "a.wav" = .ok 10 := by
  refine ⟨(claim_C6_get_duration ⟨fun _ => false, fun _ => .ok ⟨80000, 8000⟩⟩ "a.wav"
      ⟨80000, 8000⟩).1 rfl, ?_⟩
  have h := (claim_C6_get_duration ⟨fun _ => true, fun _ => .ok ⟨80000, 8000⟩⟩ "a.wav"
      ⟨80000, 8000⟩).2 rfl rfl
  rw [h]
  norm_num

/-- Claim C7: `ensure_mono` returns a 1-dim input unchanged; on a
(frames, channels) input every returned buffer has shape (frames,) with entry
i the average of row i across the channel dimension; any rank above 2 fails
with the unsupported-rank `ValueError`. -/
theorem claim_C7_ensure_mono (a : NDArray) (f c : Nat) :
    (a.ndim = 1 → ensure_mono a = .ok a) ∧
    (a.shape = [f, c] → 0 < c → ∀ i, i < f → ∀ b, ensure_mono a = .ok b →
      b.shape = [f] ∧ b.data.getD i 0 =
        (((List.range c).map (fun j => a.data.getD (i * c + j) 0)).sum) / (c : ℚ)) ∧
    (2 < a.ndim → ensure_mono a = .error (.unsupportedRank a.ndim)) := by
  refine ⟨?_, ?_, ?_⟩
  · intro h
    simp [ensure_mono, h]
  · intro hs _hc i hi b hb
    have hnd1 : a.ndim ≠ 1 := by simp [NDArray.ndim, hs]
    have hnd2 : a.ndim = 2 := by simp [NDArray.ndim, hs]
    rw [ensure_mono, if_neg hnd1, if_pos hnd2] at hb
    injection hb with hb
    rw [← hb]
    constructor
    · simp [hs]
    · simp [hs, List.getD_eq_getElem?_getD, List.getElem?_map, List.getElem?_range, hi]
  · intro h
    have h1 : a.ndim ≠ 1 := by omega
    have h2 : a.ndim ≠ 2 := by omega
    simp [ensure_mono, h1, h2]

/-- Witness for claim C7: a 1-dim buffer, the (2,2) buffer [[1,2],[3,5]]
averaging to [3/2, 4], and a rank-3 buffer. -/
theorem claim_C7_witness :
    ensure_mono ⟨[3], [1, 2, 3]⟩ = .ok ⟨[3], [1, 2, 3]⟩ ∧
    ((⟨[2], [3/2, 4]⟩ : NDArray).shape = [2] ∧
      (⟨[2], [3/2, 4]⟩ : NDArray).data.getD 1 0 = 4) ∧
    ensure_mono ⟨[2, 2, 2], [0, 0, 0, 0, 0, 0, 0, 0]⟩ =
      .error (.unsupportedRank 3) := by
  refine ⟨(claim_C7_ensure_mono ⟨[3], [1, 2, 3]⟩ 3 0).1 rfl, ?_,
    (claim_C7_ensure_mono ⟨[2, 2, 2], [0, 0, 0, 0, 0, 0, 0, 0]⟩ 0 0).2.2
      (by norm_num [NDArray.ndim])⟩
  have hmono : ensure_mono ⟨[2, 2], [1, 2, 3, 5]⟩ = .ok ⟨[2], [3/2, 4]⟩ := by
    simp [ensure_mono, NDArray.ndim, List.range_succ]
    norm_num
  have h := (claim_C7_ensure_mono ⟨[2, 2], [1, 2, 3, 5]⟩ 2 2).2.1 rfl (by norm_num)
    1 (by norm_num) ⟨[2], [3/2, 4]⟩ hmono
  refine ⟨h.1, ?_⟩
  rw [h.2]
  norm_num [List.range_succ]

/-- Claim C9: `convert_from_file` fails with `FileNotFoundError` when the
input path does not exist — for every loader, so before any loading — and when
the loader fails with cause `e` it surfaces the wrapped load-failure error
carrying `e`, propagated immediately. -/
theorem claim_C9_convert_from_file (env : SoundFileEnv)
    (load : String → Nat → Bool → Except String NDArray)
    (available : List String) (input_path output_path : String)
    (target_sr bits : Nat) (mono : Bool) (cache : SubtypeCache) (e : String) :
    (env.pathExists input_path = false →
      convert_from_file env load available input_path output_path
        target_sr bits mono cache = .error (.fileNotFound input_path)) ∧
    (env.pathExists input_path = true →
      load input_path target_sr mono = .error e →
      convert_from_file env load available input_path output_path
        target_sr bits mono cache = .error (.loadFailure e)) := by
  constructor
  · intro he
    simp [convert_from_file, he]
  · intro he hl
    simp [convert_from_file, he, hl]

/-- Witness for claim C9: a missing input path, and a loader failing with
cause "decode error". -/
theorem claim_C9_witness :
    convert_from_file ⟨fun _ => false, fun _ => .ok ⟨80000, 8000⟩⟩
      (fun _ _ _ => .ok ⟨[1], [0]⟩) ["IMA_ADPCM"] "in.mp3" "out.wav"
      16000 2 true [] = .error (.fileNotFound "in.mp3") ∧
    convert_from_file ⟨fun _ => true, fun _ => .ok ⟨80000, 8000⟩⟩
      (fun _ _ _ => .error "decode error") ["IMA_ADPCM"] "in.mp3" "out.wav"
      16000 2 true [] = .error (.loadFailure "decode error") :=
  ⟨(claim_C9_convert_from_file ⟨fun _ => false, fun _ => .ok ⟨80000, 8000⟩⟩
      (fun _ _ _ => .ok ⟨[1], [0]⟩) ["IMA_ADPCM"] "in.mp3" "out.wav"
      16000 2 true [] "decode error").1 rfl,
   (claim_C9_convert_from_file ⟨fun _ => true, fun _ => .ok ⟨80000, 8000⟩⟩
      (fun _ _ _ => .error "decode error") ["IMA_ADPCM"] "in.mp3" "out.wav"
      16000 2 true [] "decode error").2 rfl rfl⟩

/-- Claim C10: on every cache satisfying the program's invariant (only
non-empty subtypes are ever stored — true of the initial empty cache and
preserved by `resolve_best_subtype`, the only writer), resolution returns a
non-empty string or raises, so the `ValueError` branch in `write` reporting an
unsupported bits_per_sample is unreachable. -/
theorem claim_C10_valueerror_unreachable (available : List String) (bits : Nat)
    (cache : SubtypeCache) (path : String) (data : NDArray) (sr : Nat)
    (hc : CacheOK cache) :
    (∀ r, resolve_best_subtype available bits cache = .ok r → r.subtype ≠ "") ∧
    (∀ b ks, write available path data sr bits cache ≠
      .error (.valueErrorUnsupportedBits b ks)) := by
  constructor
  · intro r h
    exact resolve_ok_subtype_ne available bits cache r hc h
  · intro b ks
    unfold write
    cases hres : resolve_best_subtype available bits cache with
    | error e =>
      have he := resolve_error_eq available bits cache e hres
      simp [he]
    | ok r =>
      have hne := resolve_ok_subtype_ne available bits cache r hc hres
      simp [hne]

/-- Witness for claim C10 at bits = 6 on the empty cache. -/
theorem claim_C10_witness :
    write ["IMA_ADPCM"] "o2.wav" ⟨[1], [0]⟩ 8000 6 [] ≠
      .error (.valueErrorUnsupportedBits 6 [6]) :=
  (claim_C10_valueerror_unreachable ["IMA_ADPCM"] 6 [] "o2.wav" ⟨[1], [0]⟩ 8000
    cacheOK_nil).2 6 [6]

end G726
